import Mathlib

/-!
# Verification development for the 5-axis robotic-arm firmware

Shallow embedding of `src/5A-RA_firmware/5A-RA_firmware.ino` (Arduino C++).

## Platform and arithmetic model

* `int` / `long` are 32-bit two's complement (as on the ARM-based Arduino
  cores).  All `int` values arising below stay well inside the 32-bit range,
  so they are modelled as `ℤ` (or `ℕ` where provably non-negative).
* `uint32_t` arithmetic is modular: modelled as `ℕ` with explicit `% 2 ^ 32`.
  C's usual arithmetic conversions turn a mixed `int`/`uint32_t` expression
  into `uint32_t`; the embedding therefore reduces the `int` operand
  `mod 2 ^ 32` at exactly those points (this is where the firmware's
  backward-motion bugs come from, see `dynProd` and `compute_angle`).
* `uint8_t` (`byte`) storage is modular: `% 256`.  An integer-to-`uint8_t`
  conversion is defined modular in C.  A *floating*-to-`uint8_t` conversion
  is only defined when the truncated value fits in the type; an out-of-range
  conversion is undefined behaviour and is modelled here as truncation
  toward zero followed by reduction `% 256` (flagged at each place where it
  can actually trigger; no claim marked `confirmed` depends on such a value).
* `double` arithmetic is modelled exactly, over scaled integers: every
  floating expression in the firmware is a rational number with denominator
  10^6, 6250 or 1000, and at each point where such a value is truncated to
  an integer the exact value is at distance at least 1/6250 from the nearest
  integer unless the computation is exact in binary64 as well.  With
  correctly rounded binary64 operations (error < 2^-40 here) the truncated
  results coincide with truncation of the exact rational, so the embedding
  computes `trunc(num/den)` as `Int.tdiv num den`.
* `pow(x, 0.5)` for `x ≥ 0` is modelled as the correctly rounded square
  root; `dynSpeed` below records the resulting closed form over `Nat`
  (see its doc-string for the derivation).  For `x < 0`, `pow` returns NaN
  and the subsequent `(int)` conversion is undefined behaviour (relevant to
  claim C6 only).
* `Servo.write(a)` records `a` as the servo's angle and `Servo.read()`
  returns the last recorded angle (the actuator interface is an external
  collaborator in the spec; physical pulse widths are out of scope).
* `millis()` is modelled by passing the sampled elapsed times as explicit
  arguments (a single `t` for one scheduler iteration, a list of successive
  samples for the blocking reset loop).
-/

/-! ## Data structures (source lines 81-99) -/

/-- `motor_dynamics_t` (source lines 81-90).  `forward : bool`,
`t1 t2 : uint32_t` (ℕ, values kept below `2 ^ 32`),
`angle_t0/t1/t2/tf : uint8_t` (ℕ, values below 256), `delta : int` (ℤ). -/
structure MotorDynamics where
  forward : Bool
  t1 : ℕ
  t2 : ℕ
  angle_t0 : ℕ
  angle_t1 : ℕ
  angle_t2 : ℕ
  angle_tf : ℕ
  delta : ℤ
deriving DecidableEq, Repr

/-- The six servo outputs (`Servo M1 … M5` plus the mirrored `M2s`,
source lines 103-108). -/
inductive ServoId where
  | M1
  | M2
  | M2s
  | M3
  | M4
  | M5
deriving DecidableEq, Repr

/-- The firmware's global mutable state (source lines 102-123): the five
per-axis `motor_dynamics_t` structs, the mode/run flags and `motor_id`,
plus the six servos' last-written (read-back) angles. -/
structure RobotState where
  dM1 : MotorDynamics
  dM2 : MotorDynamics
  dM3 : MotorDynamics
  dM4 : MotorDynamics
  dM5 : MotorDynamics
  motor_id : Char
  single_motor_mode : Bool
  cartesian_mode : Bool
  single_motor_running : Bool
  five_axis_running : Bool
  rM1 : ℕ
  rM2 : ℕ
  rM2s : ℕ
  rM3 : ℕ
  rM4 : ℕ
  rM5 : ℕ
deriving DecidableEq, Repr

/-! ## Exact-value helpers for the floating-point expressions -/

/-- C conversion of a floating value to `uint8_t`.  The floating value is the
exact rational `num / den` (`den > 0` at every use site); C truncates toward
zero, which for rationals is `Int.tdiv`.  If the truncated value lies outside
`[0, 255]` the C conversion is undefined behaviour; the embedding reduces
`% 256` (Euclidean, hence non-negative).  Every place where the out-of-range
case is reachable is flagged in the doc-string of the definition using it. -/
def toU8Frac (num den : ℤ) : ℕ := ((num.tdiv den) % 256).toNat

/-- Integer square root used by `dynSpeed`: the greatest `k ≤ 480` with
`k * k ≤ d`.  All discriminants handled by the firmware satisfy
`0 ≤ delta ≤ 230400 = 480 ^ 2`, so the cap 480 is never the binding
constraint.  (`Nat.findGreatest` is structurally recursive, hence kernel
computable.) -/
def isq (d : ℕ) : ℕ := Nat.findGreatest (fun k => k * k ≤ d) 480

/-- `const int SPEED = 0.5 * (TF * ACC / 1000.0 - pow(dyn->delta, 0.5));`
(source line 385), with `TF * ACC / 1000.0 = 480.0` exactly.

For `delta ≥ 0` this is `⌊(480 - √delta)/2⌋` with `√` the correctly rounded
binary64 square root.  Writing `s = ⌊√delta⌋` (`isq`):
* if `delta = s ^ 2`, the binary64 root is exactly `s` and the result is
  `(480 - s) / 2` (Nat division);
* otherwise `√delta` is irrational, lies strictly between `s` and `s + 1`,
  and is at distance > 1/962 from every integer, while the binary64 rounding
  error is < 2^-40; so the floor is that of the exact real:
  `(480 - s)/2 - 1` when `s` is even, `(480 - s)/2` when `s` is odd.

For `delta < 0`, `pow` returns NaN and the `(int)` conversion is undefined
behaviour in C; the embedding then returns the `s = 0` square-branch value
240.  No claim below that is marked `confirmed` depends on the value of this
function at a negative argument. -/
def dynSpeed (delta : ℤ) : ℕ :=
  if (isq delta.toNat) * (isq delta.toNat) = delta.toNat then (480 - isq delta.toNat) / 2
  else if (isq delta.toNat) % 2 = 0 then (480 - isq delta.toNat) / 2 - 1
  else (480 - isq delta.toNat) / 2

/-! ## `compute_dynamics` (source lines 373-392)

The planner is decomposed into one definition per assignment so that each
can be compared with its source line. -/

/-- `const byte DISTANCE = sqrt(pow(dyn->angle_tf - dyn->angle_t0, 2));`
(source line 382): the two `uint8_t` fields are promoted to `int`, squared
and square-rooted exactly in binary64 (values ≤ 255² = 65025), so `DISTANCE`
is `|angle_tf - angle_t0|`, which fits in a byte. -/
def dynDistance (atf a0 : ℕ) : ℕ := ((atf : ℤ) - (a0 : ℤ)).natAbs

/-- `dyn->delta = pow(TF * ACC / 1000.0, 2) - 4 * DISTANCE * ACC;`
(source line 383): exactly `230400 - 1280 * DISTANCE` (both terms exact in
binary64 and in 32-bit `int`). -/
def dynDelta (atf a0 : ℕ) : ℤ := 230400 - 1280 * (dynDistance atf a0 : ℤ)

/-- `dyn->t1 = 1000 * SPEED / ACC;` (source line 386), integer division. -/
def dynT1 (atf a0 : ℕ) : ℕ := 1000 * dynSpeed (dynDelta atf a0) / 320

/-- `dyn->t2 = TF - dyn->t1;` (source line 387).  `SPEED ≤ 240` always, so
`t1 ≤ 750` and the subtraction does not underflow. -/
def dynT2 (atf a0 : ℕ) : ℕ := 1500 - dynT1 atf a0

/-- `const int SIGN = (dyn->angle_tf - dyn->angle_t0) / DISTANCE;`
(source line 389): +1 / -1 for a forward / backward move.  When
`DISTANCE = 0` the C source divides zero by zero, which is undefined
behaviour (no trap on the AVR/ARM Arduino targets; ARM hardware yields 0,
matching `Int.tdiv _ 0 = 0` used here).  Every use of `SIGN` in the planner
is multiplied by a factor that is 0 whenever `DISTANCE = 0` (`t1 ^ 2 = 0`
and `SPEED = 0`), so the stored profile does not depend on which finite
quotient the platform produces; `dynA1_self_any_sign` and
`dynProd_self_any_sign` below make this independence formal for an
arbitrary quotient. -/
def dynSign (atf a0 : ℕ) : ℤ := ((atf : ℤ) - (a0 : ℤ)).tdiv (dynDistance atf a0)

/-- `dyn->angle_t1 = dyn->angle_t0 + SIGN * ACC * pow(dyn->t1 / 1000.0, 2) / 2;`
(source line 390): the exact value is `a0 + SIGN * t1 ^ 2 / 6250`, scaled
here by 10^6 (`SIGN * ACC * t1 ^ 2 / 10 ^ 6 / 2 = SIGN * 160 * t1 ^ 2 / 10 ^ 6`).
Stored into a `uint8_t`; for a backward move the exact value is slightly
below `a0` and C truncation lands one degree low (reproduced by `tdiv`). -/
def dynA1 (atf a0 : ℕ) : ℕ :=
  toU8Frac ((a0 : ℤ) * 1000000 + dynSign atf a0 * 160 * (dynT1 atf a0 : ℤ) ^ 2) 1000000

/-- The sub-expression `SIGN * SPEED * (dyn->t2 - dyn->t1)` of source line
391.  `SIGN * SPEED` is an `int`; multiplying it by the `uint32_t`
`(t2 - t1)` converts it to `uint32_t` first, so for a backward move
(`SIGN * SPEED = -SPEED`) the product wraps around `2 ^ 32` instead of being
negative — this is the firmware defect behind claim C7. -/
def dynProd (atf a0 : ℕ) : ℕ :=
  ((dynSign atf a0 * (dynSpeed (dynDelta atf a0) : ℤ)) % (2 ^ 32)).toNat
    * (dynT2 atf a0 - dynT1 atf a0) % 2 ^ 32

/-- `dyn->angle_t2 = dyn->angle_t1 + SIGN * SPEED * (dyn->t2 - dyn->t1) / 1000.0;`
(source line 391): the wrapped `uint32_t` product (`dynProd`) is converted
to `double` and divided by 1000.0, giving exactly `a1 + dynProd / 1000`
(rational with denominator 1000; binary64 evaluation truncates to the same
integer).  For a backward move with `SPEED ≥ 1` the value is ≈ 4.29·10^6,
far outside `uint8_t` range: the C conversion is undefined behaviour there,
modelled as `% 256` (see `toU8Frac`). -/
def dynA2 (atf a0 : ℕ) : ℕ :=
  toU8Frac ((dynA1 atf a0 : ℤ) * 1000 + (dynProd atf a0 : ℤ)) 1000

/-- `compute_dynamics` (source lines 373-392).  The caller has already
stored the target into `angle_tf` (see the `@warning` in the source); the
embedding takes that target `atf` and the servo's read-back `a0` and
returns the fully (re)written struct — every other field is assigned by the
function body, so building a fresh struct is exact. -/
def compute_dynamics (atf a0 : ℕ) : MotorDynamics :=
  { forward := decide (a0 < atf)
    t1 := dynT1 atf a0
    t2 := dynT2 atf a0
    angle_t0 := a0
    angle_t1 := dynA1 atf a0
    angle_t2 := dynA2 atf a0
    angle_tf := atf
    delta := dynDelta atf a0 }

/-! ## `compute_angle` (source lines 394-416) -/

/-- The constant-velocity branch of `compute_angle` (source lines 404-407):

    const int B = dyn->angle_t1 - (dyn->angle_t2 - dyn->angle_t1) * dyn->t1 / (dyn->t2 - dyn->t1);
    angle = t * (dyn->angle_t2 - dyn->angle_t1) / (dyn->t2 - dyn->t1) + B;

`(angle_t2 - angle_t1)` is an `int`; each product with a `uint32_t`
(`t1`, resp. `t`) converts it to `uint32_t` (wrapping when negative), the
divisions are unsigned, `B` round-trips through `int` (two's-complement
wrap, pattern preserved), and the final store to the `uint8_t` `angle`
reduces `% 256`.  The branch guard `t1 < t ≤ t2` ensures `t2 - t1 ≠ 0`
at every reachable call. -/
def phase2val (dyn : MotorDynamics) (t : ℕ) : ℕ :=
  (t * (((dyn.angle_t2 : ℤ) - (dyn.angle_t1 : ℤ)) % 2 ^ 32).toNat % 2 ^ 32 / (dyn.t2 - dyn.t1)
    + (((dyn.angle_t1 : ℤ)
        - ((((dyn.angle_t2 : ℤ) - (dyn.angle_t1 : ℤ)) % 2 ^ 32).toNat * dyn.t1 % 2 ^ 32
            / (dyn.t2 - dyn.t1) : ℕ)) % 2 ^ 32).toNat) % 2 ^ 32 % 256

/-- `compute_angle` (source lines 394-416).  `t` is the `uint32_t` elapsed
time.  Phase 1 (`t ≤ t1`) and phase 3 (`t2 < t ≤ TF`) evaluate
`±pow(·/1000.0, 2) * ACC / 2 + angle`, i.e. the exact rational
`angle ± (·) ^ 2 / 6250`, truncated into a `uint8_t`.

In the backward phase-3 branch the source computes `pow((t - TF) / 1000.0, 2)`
with `t : uint32_t`, so for `t2 < t < TF` the difference `t - TF` wraps to
`2 ^ 32 - (TF - t)` (≈ 4.29·10^9) instead of the intended negative value —
the square is then ≈ 2.9·10^15 and the `uint8_t` store is undefined
behaviour (modelled `% 256`; at `t = TF` the branch is exact and yields
`angle_tf`).  This is the second firmware defect behind claim C7. -/
def compute_angle (dyn : MotorDynamics) (t : ℕ) : ℕ :=
  if t ≤ dyn.t1 then
    if dyn.forward then toU8Frac ((dyn.angle_t0 : ℤ) * 6250 + (t : ℤ) ^ 2) 6250
    else toU8Frac ((dyn.angle_t0 : ℤ) * 6250 - (t : ℤ) ^ 2) 6250
  else if t ≤ dyn.t2 then
    phase2val dyn t
  else if t ≤ 1500 then
    if dyn.forward then toU8Frac ((dyn.angle_tf : ℤ) * 6250 - ((1500 - t : ℕ) : ℤ) ^ 2) 6250
    else toU8Frac ((dyn.angle_tf : ℤ) * 6250 + (((t + 2 ^ 32 - 1500) % 2 ^ 32 : ℕ) : ℤ) ^ 2) 6250
  else dyn.angle_tf

/-! ## `is_delta_positive` and the scheduler (source lines 443-452, 172-211) -/

/-- `is_delta_positive` (source lines 443-452): true iff all five stored
discriminants are non-negative. -/
def is_delta_positive (s : RobotState) : Bool :=
  if 0 ≤ s.dM1.delta ∧ 0 ≤ s.dM2.delta ∧ 0 ≤ s.dM3.delta
      ∧ 0 ≤ s.dM4.delta ∧ 0 ≤ s.dM5.delta then
    true
  else
    false

/-- One iteration of the scheduler's inner polling loop (source lines
175-211) at elapsed time `t`: the list of `Servo.write` calls it performs,
in order.  Writes happen only when `is_delta_positive` holds; then either
the selected single axis (axis 2 drives both mirrored servos) or, in
all-axis mode, all six servos. -/
def schedulerWrites (s : RobotState) (t : ℕ) : List (ServoId × ℕ) :=
  if is_delta_positive s then
    if s.single_motor_running then
      if s.motor_id = '1' then [(ServoId.M1, compute_angle s.dM1 t)]
      else if s.motor_id = '2' then
        [(ServoId.M2, compute_angle s.dM2 t), (ServoId.M2s, compute_angle s.dM2 t)]
      else if s.motor_id = '3' then [(ServoId.M3, compute_angle s.dM3 t)]
      else if s.motor_id = '4' then [(ServoId.M4, compute_angle s.dM4 t)]
      else if s.motor_id = '5' then [(ServoId.M5, compute_angle s.dM5 t)]
      else []
    else if s.five_axis_running then
      [(ServoId.M1, compute_angle s.dM1 t), (ServoId.M2, compute_angle s.dM2 t),
        (ServoId.M2s, compute_angle s.dM2 t), (ServoId.M3, compute_angle s.dM3 t),
        (ServoId.M4, compute_angle s.dM4 t), (ServoId.M5, compute_angle s.dM5 t)]
    else []
  else []

/-! ## Command interpretation (source lines 212-305) -/

/-- Arduino's `map(x, in_min, in_max, out_min, out_max)`:
`(x - in_min) * (out_max - out_min) / (in_max - in_min) + out_min` in
32-bit `long` arithmetic (C division truncates toward zero). -/
def arduinoMap (x inLo inHi outLo outHi : ℤ) : ℤ :=
  ((x - inLo) * (outHi - outLo)).tdiv (inHi - inLo) + outLo

/-- On arrival of any command line the main loop clears both run flags
before parsing (source lines 215-216). -/
def commandPrelude (s : RobotState) : RobotState :=
  { s with single_motor_running := false, five_axis_running := false }

/-- The single-motor command branch `M<id>.<ppp>` (source lines 242-272),
after `commandPrelude`: store `motor_id`, map the parsed percentage onto
the axis's range (axes 1 and 5 with `map(p,0,100,0,RANGE)`, axes 2-4
reversed with `map(p,0,100,RANGE,0)`), store the result into the 8-bit
`angle_tf` (`% 256`), re-plan that axis from its servo read-back, and set
`single_motor_running`.  `percent` is whatever `String::toInt` produced; no
range validation is performed (claim C10).  An unknown id falls through the
switch without storing (but still sets the flag and `motor_id`). -/
def handleSingleMotor (s : RobotState) (id : Char) (percent : ℤ) : RobotState :=
  if id = '1' then
    { s with motor_id := id, single_motor_running := true,
             dM1 := compute_dynamics ((arduinoMap percent 0 100 0 180) % 256).toNat s.rM1 }
  else if id = '2' then
    { s with motor_id := id, single_motor_running := true,
             dM2 := compute_dynamics ((arduinoMap percent 0 100 180 0) % 256).toNat s.rM2 }
  else if id = '3' then
    { s with motor_id := id, single_motor_running := true,
             dM3 := compute_dynamics ((arduinoMap percent 0 100 165 0) % 256).toNat s.rM3 }
  else if id = '4' then
    { s with motor_id := id, single_motor_running := true,
             dM4 := compute_dynamics ((arduinoMap percent 0 100 180 0) % 256).toNat s.rM4 }
  else if id = '5' then
    { s with motor_id := id, single_motor_running := true,
             dM5 := compute_dynamics ((arduinoMap percent 0 100 0 180) % 256).toNat s.rM5 }
  else
    { s with motor_id := id, single_motor_running := true }

/-- The guard-and-commit tail of `get_angles_from_cartesian` (source lines
356-371).  The five solved angles have already been rounded and stored into
`byte` locals (`ANGLE_M1 … ANGLE_M5`, values < 256 — the trigonometric
computation producing them, lines 334-355, is external to this embedding);
the function checks each against `[0, RANGE]` (the `≥ 0` half is vacuous on
an unsigned byte) and either commits all five `angle_tf` fields together or
leaves the state untouched and reports the work-envelope error (`true` in
the second component; the spec's "Unreachable" report). -/
def get_angles_commit (s : RobotState) (a1 a2 a3 a4 a5 : ℕ) : RobotState × Bool :=
  if a1 ≤ 180 ∧ a2 ≤ 180 ∧ a3 ≤ 165 ∧ a4 ≤ 180 ∧ a5 ≤ 180 then
    ({ s with dM1 := { s.dM1 with angle_tf := a1 },
              dM2 := { s.dM2 with angle_tf := a2 },
              dM3 := { s.dM3 with angle_tf := a3 },
              dM4 := { s.dM4 with angle_tf := a4 },
              dM5 := { s.dM5 with angle_tf := a5 } }, false)
  else
    (s, true)

/-- The cartesian command branch (source lines 274-297), after
`commandPrelude`, with the solver's five rounded byte angles passed in:
run the commit (`get_angles_from_cartesian`), then unconditionally re-plan
all five axes from their servo read-backs toward whatever targets are now
stored, and set `five_axis_running` — even when the commit rejected the
pose (claim C9).  The second component is the commit's error report. -/
def handleCartesian (s : RobotState) (a1 a2 a3 a4 a5 : ℕ) : RobotState × Bool :=
  ({ (get_angles_commit s a1 a2 a3 a4 a5).1 with
      dM1 := compute_dynamics (get_angles_commit s a1 a2 a3 a4 a5).1.dM1.angle_tf
               (get_angles_commit s a1 a2 a3 a4 a5).1.rM1
      dM2 := compute_dynamics (get_angles_commit s a1 a2 a3 a4 a5).1.dM2.angle_tf
               (get_angles_commit s a1 a2 a3 a4 a5).1.rM2
      dM3 := compute_dynamics (get_angles_commit s a1 a2 a3 a4 a5).1.dM3.angle_tf
               (get_angles_commit s a1 a2 a3 a4 a5).1.rM3
      dM4 := compute_dynamics (get_angles_commit s a1 a2 a3 a4 a5).1.dM4.angle_tf
               (get_angles_commit s a1 a2 a3 a4 a5).1.rM4
      dM5 := compute_dynamics (get_angles_commit s a1 a2 a3 a4 a5).1.dM5.angle_tf
               (get_angles_commit s a1 a2 a3 a4 a5).1.rM5
      five_axis_running := true },
    (get_angles_commit s a1 a2 a3 a4 a5).2)

/-! ## `reset_robot` (source lines 418-441) -/

/-- The planning prefix of `reset_robot` (source lines 419-428): store the
five initial angles (`ANGLE_INIT_M1 … M5` = 90, 180, 165, 90, 180) as
targets and re-plan every axis from its servo read-back. -/
def resetPlanned (s : RobotState) : RobotState :=
  { s with dM1 := compute_dynamics 90 s.rM1
           dM2 := compute_dynamics 180 s.rM2
           dM3 := compute_dynamics 165 s.rM3
           dM4 := compute_dynamics 90 s.rM4
           dM5 := compute_dynamics 180 s.rM5 }

/-- One body execution of the reset do-while loop (source lines 431-439) at
elapsed time `t`: sample all five profiles and write all six servos (the
state records each servo's last written angle). -/
def resetBody (s : RobotState) (t : ℕ) : RobotState :=
  { s with rM1 := compute_angle s.dM1 t
           rM2 := compute_angle s.dM2 t
           rM2s := compute_angle s.dM2 t
           rM3 := compute_angle s.dM3 t
           rM4 := compute_angle s.dM4 t
           rM5 := compute_angle s.dM5 t }

/-- The reset do-while loop (source lines 429-440), driven by the list of
successive `millis() - t0` samples: execute the body at the head sample,
then — per the source's condition `while (t > TF)` — continue only if that
elapsed time *exceeds* `TF` (this inverted condition is the defect behind
claim C3).  An exhausted sample list ends the loop. -/
def resetLoop (s : RobotState) : List ℕ → RobotState
  | [] => s
  | t :: rest => if t > 1500 then resetLoop (resetBody s t) rest else resetBody s t

/-- `reset_robot` (source lines 418-441): plan all five axes toward the
initial pose, then run the do-while dispatch loop over the elapsed-time
samples. -/
def reset_robot (s : RobotState) (times : List ℕ) : RobotState :=
  resetLoop (resetPlanned s) times

/-- The state after `setup()` (source lines 161-170, 311-327): zeroed
dynamics structs (C zero-initialised globals), `motor_id = '\0'`, all mode
and run flags clear, and every servo written its initial angle
(90, 180, 180, 165, 90, 180 for M1, M2, M2s, M3, M4, M5). -/
def initialState : RobotState :=
  { dM1 := ⟨false, 0, 0, 0, 0, 0, 0, 0⟩
    dM2 := ⟨false, 0, 0, 0, 0, 0, 0, 0⟩
    dM3 := ⟨false, 0, 0, 0, 0, 0, 0, 0⟩
    dM4 := ⟨false, 0, 0, 0, 0, 0, 0, 0⟩
    dM5 := ⟨false, 0, 0, 0, 0, 0, 0, 0⟩
    motor_id := Char.ofNat 0
    single_motor_mode := false
    cartesian_mode := false
    single_motor_running := false
    five_axis_running := false
    rM1 := 90
    rM2 := 180
    rM2s := 180
    rM3 := 165
    rM4 := 90
    rM5 := 180 }

/-! ## Basic arithmetic lemmas about the embedding -/

/-- Truncating an exact multiple of the denominator recovers the (byte)
numerator. -/
lemma toU8Frac_mul (a : ℕ) (d : ℤ) (hd : d ≠ 0) (ha : a < 256) :
    toU8Frac ((a : ℤ) * d) d = a := by
  unfold toU8Frac
  rw [Int.mul_tdiv_cancel _ hd]
  omega

/-- `isq d` is a lower square root: `isq d ^ 2 ≤ d`. -/
lemma isq_sq_le (d : ℕ) : isq d * isq d ≤ d :=
  Nat.findGreatest_spec (P := fun k => k * k ≤ d) (Nat.zero_le 480) (by simp)

/-- `isq` is bounded by any `k` with `d < (k+1)^2`. -/
lemma isq_le_of_lt_sq {d k : ℕ} (h : d < (k + 1) * (k + 1)) : isq d ≤ k := by
  by_contra hk
  push_neg at hk
  have h1 : (k + 1) * (k + 1) ≤ isq d * isq d :=
    Nat.mul_le_mul (Nat.succ_le_of_lt hk) (Nat.succ_le_of_lt hk)
  have h2 := isq_sq_le d
  omega

/-- The planned peak speed never exceeds 240 deg/s. -/
lemma dynSpeed_le_240 (delta : ℤ) : dynSpeed delta ≤ 240 := by
  unfold dynSpeed
  split
  · omega
  split <;> omega

/-- `t1 ≤ 750` for every planned profile. -/
lemma dynT1_le_750 (atf a0 : ℕ) : dynT1 atf a0 ≤ 750 := by
  have := dynSpeed_le_240 (dynDelta atf a0)
  unfold dynT1
  omega

/-- `t1 ≤ t2` for every planned profile (with `t2 = 1500 - t1`). -/
lemma dynT1_le_dynT2 (atf a0 : ℕ) : dynT1 atf a0 ≤ dynT2 atf a0 := by
  have := dynT1_le_750 atf a0
  unfold dynT2
  omega

/-- A discriminant of a move of distance ≥ 2 yields a positive peak speed. -/
lemma dynSpeed_pos (delta : ℤ) (h : delta ≤ 227840) : 1 ≤ dynSpeed delta := by
  have hs : isq delta.toNat ≤ 477 := by
    apply isq_le_of_lt_sq
    omega
  unfold dynSpeed
  split
  · omega
  split <;> omega

/-! ## Claim C1 — the collective feasibility gate -/

/-- Claim C1: in any scheduler iteration, if any of the five stored profiles
has a negative discriminant, the scheduler writes to no actuator — for any
axis, any `motor_id`, and regardless of whether `single_motor_running` or
`five_axis_running` is set. -/
theorem scheduler_gate_blocks_all_writes (s : RobotState) (t : ℕ)
    (h : s.dM1.delta < 0 ∨ s.dM2.delta < 0 ∨ s.dM3.delta < 0
          ∨ s.dM4.delta < 0 ∨ s.dM5.delta < 0) :
    schedulerWrites s t = [] := by
  have hgate : is_delta_positive s = false := by
    unfold is_delta_positive
    rw [if_neg]
    omega
  simp [schedulerWrites, hgate]

/-- A concrete state for exercising the feasibility gate: all-axis run mode,
axis 3's profile infeasible (`delta = -1`), every other discriminant
non-negative. -/
def gateDemoState : RobotState :=
  { initialState with five_axis_running := true,
                      dM3 := ⟨false, 0, 1500, 90, 90, 90, 90, -1⟩ }

theorem scheduler_gate_blocks_all_writes_witness :
    (gateDemoState.dM1.delta < 0 ∨ gateDemoState.dM2.delta < 0
      ∨ gateDemoState.dM3.delta < 0 ∨ gateDemoState.dM4.delta < 0
      ∨ gateDemoState.dM5.delta < 0) ∧
    schedulerWrites gateDemoState 100 = [] :=
  ⟨by decide, scheduler_gate_blocks_all_writes gateDemoState 100 (by decide)⟩

/-! ## Claim C2 — atomic rejection of unreachable cartesian targets -/

/-- Claim C2: for any state and any five solver-produced byte angles, if any
angle lies outside its joint's range the whole state is left untouched (in
particular no `angle_tf` is modified — rejection is atomic) and the
work-envelope ("Unreachable") report is emitted; otherwise all five stored
targets are updated together and no report is emitted. -/
theorem cartesian_commit_atomic (s : RobotState) (a1 a2 a3 a4 a5 : ℕ) :
    (¬(a1 ≤ 180 ∧ a2 ≤ 180 ∧ a3 ≤ 165 ∧ a4 ≤ 180 ∧ a5 ≤ 180) →
      get_angles_commit s a1 a2 a3 a4 a5 = (s, true)) ∧
    ((a1 ≤ 180 ∧ a2 ≤ 180 ∧ a3 ≤ 165 ∧ a4 ≤ 180 ∧ a5 ≤ 180) →
      get_angles_commit s a1 a2 a3 a4 a5 =
        ({ s with dM1 := { s.dM1 with angle_tf := a1 },
                  dM2 := { s.dM2 with angle_tf := a2 },
                  dM3 := { s.dM3 with angle_tf := a3 },
                  dM4 := { s.dM4 with angle_tf := a4 },
                  dM5 := { s.dM5 with angle_tf := a5 } }, false)) := by
  constructor <;> intro h <;> simp [get_angles_commit, h]

theorem cartesian_commit_atomic_witness :
    get_angles_commit initialState 90 90 200 90 90 = (initialState, true) ∧
    get_angles_commit initialState 10 20 30 40 50 =
      ({ initialState with
          dM1 := { initialState.dM1 with angle_tf := 10 },
          dM2 := { initialState.dM2 with angle_tf := 20 },
          dM3 := { initialState.dM3 with angle_tf := 30 },
          dM4 := { initialState.dM4 with angle_tf := 40 },
          dM5 := { initialState.dM5 with angle_tf := 50 } }, false) :=
  ⟨(cartesian_commit_atomic initialState 90 90 200 90 90).1 (by norm_num),
   (cartesian_commit_atomic initialState 10 20 30 40 50).2 (by norm_num)⟩

/-! ## Claim C9 — after an unreachable target the interpreter still re-plans
and re-arms the scheduler -/

/-- Claim C9 (implicit behaviour): when the cartesian solver's angles are
rejected as unreachable, the interpreter nonetheless re-plans all five
profiles from the current servo read-backs toward the previously stored
(unchanged) targets and sets `five_axis_running`, so the scheduler resumes
dispatching toward the old targets instead of staying idle; the error
report is still emitted. -/
theorem unreachable_still_replans (s : RobotState) (a1 a2 a3 a4 a5 : ℕ)
    (h : ¬(a1 ≤ 180 ∧ a2 ≤ 180 ∧ a3 ≤ 165 ∧ a4 ≤ 180 ∧ a5 ≤ 180)) :
    (handleCartesian s a1 a2 a3 a4 a5).2 = true ∧
    (handleCartesian s a1 a2 a3 a4 a5).1.five_axis_running = true ∧
    (handleCartesian s a1 a2 a3 a4 a5).1.dM1 = compute_dynamics s.dM1.angle_tf s.rM1 ∧
    (handleCartesian s a1 a2 a3 a4 a5).1.dM2 = compute_dynamics s.dM2.angle_tf s.rM2 ∧
    (handleCartesian s a1 a2 a3 a4 a5).1.dM3 = compute_dynamics s.dM3.angle_tf s.rM3 ∧
    (handleCartesian s a1 a2 a3 a4 a5).1.dM4 = compute_dynamics s.dM4.angle_tf s.rM4 ∧
    (handleCartesian s a1 a2 a3 a4 a5).1.dM5 = compute_dynamics s.dM5.angle_tf s.rM5 ∧
    (handleCartesian s a1 a2 a3 a4 a5).1.dM1.angle_tf = s.dM1.angle_tf ∧
    (handleCartesian s a1 a2 a3 a4 a5).1.dM2.angle_tf = s.dM2.angle_tf ∧
    (handleCartesian s a1 a2 a3 a4 a5).1.dM3.angle_tf = s.dM3.angle_tf ∧
    (handleCartesian s a1 a2 a3 a4 a5).1.dM4.angle_tf = s.dM4.angle_tf ∧
    (handleCartesian s a1 a2 a3 a4 a5).1.dM5.angle_tf = s.dM5.angle_tf := by
  simp [handleCartesian, get_angles_commit, h, compute_dynamics]

theorem unreachable_still_replans_witness :
    ¬((90 : ℕ) ≤ 180 ∧ (90 : ℕ) ≤ 180 ∧ (200 : ℕ) ≤ 165 ∧ (90 : ℕ) ≤ 180
        ∧ (90 : ℕ) ≤ 180) ∧
    (handleCartesian initialState 90 90 200 90 90).2 = true ∧
    (handleCartesian initialState 90 90 200 90 90).1.five_axis_running = true ∧
    (handleCartesian initialState 90 90 200 90 90).1.dM1
      = compute_dynamics initialState.dM1.angle_tf initialState.rM1 ∧
    (handleCartesian initialState 90 90 200 90 90).1.dM2
      = compute_dynamics initialState.dM2.angle_tf initialState.rM2 ∧
    (handleCartesian initialState 90 90 200 90 90).1.dM3
      = compute_dynamics initialState.dM3.angle_tf initialState.rM3 ∧
    (handleCartesian initialState 90 90 200 90 90).1.dM4
      = compute_dynamics initialState.dM4.angle_tf initialState.rM4 ∧
    (handleCartesian initialState 90 90 200 90 90).1.dM5
      = compute_dynamics initialState.dM5.angle_tf initialState.rM5 ∧
    (handleCartesian initialState 90 90 200 90 90).1.dM1.angle_tf
      = initialState.dM1.angle_tf ∧
    (handleCartesian initialState 90 90 200 90 90).1.dM2.angle_tf
      = initialState.dM2.angle_tf ∧
    (handleCartesian initialState 90 90 200 90 90).1.dM3.angle_tf
      = initialState.dM3.angle_tf ∧
    (handleCartesian initialState 90 90 200 90 90).1.dM4.angle_tf
      = initialState.dM4.angle_tf ∧
    (handleCartesian initialState 90 90 200 90 90).1.dM5.angle_tf
      = initialState.dM5.angle_tf :=
  ⟨by norm_num, unreachable_still_replans initialState 90 90 200 90 90 (by norm_num)⟩

/-! ## Claim C10 — the percentage is not validated -/

/-- Claim C10 (implicit behaviour): the single-motor command applies the
linear map to whatever percentage was parsed, with no `[0, 100]` check.
For `M3.110` the map extrapolates to `-16°`, which the 8-bit store wraps
(mod 256) to 240° — outside axis 3's `[0, 165]` travel; for `M1.150` the map
gives 270°, wrapped to 14°.  The claim is existential, so concrete inputs
settle it. -/
theorem percent_not_validated :
    arduinoMap 110 0 100 165 0 = -16 ∧
    (handleSingleMotor initialState '3' 110).dM3.angle_tf = 240 ∧
    165 < 240 ∧
    arduinoMap 150 0 100 0 180 = 270 ∧
    (handleSingleMotor initialState '1' 150).dM1.angle_tf = 14 := by
  refine ⟨by decide, ?_, by norm_num, by decide, ?_⟩ <;> decide

/-! ## Claim C8 — the single-motor percentage-to-angle mapping -/

/-- Claim C8: for a single-motor command with percentage `p ∈ [0, 100]`,
axes 1 and 5 store the direct linear map of `p` onto the axis range
(0% ↦ 0°, 100% ↦ Range) while axes 2, 3 and 4 store the reversed map
(0% ↦ Range, 100% ↦ 0°), with Arduino `map`'s truncating division by 100;
axis 3's range is 165°, the others' 180°. -/
theorem single_motor_mapping (s : RobotState) (p : ℕ) (hp : p ≤ 100) :
    (handleSingleMotor s '1' ((p : ℕ) : ℤ)).dM1.angle_tf = 180 * p / 100 ∧
    (handleSingleMotor s '2' ((p : ℕ) : ℤ)).dM2.angle_tf = 180 - 180 * p / 100 ∧
    (handleSingleMotor s '3' ((p : ℕ) : ℤ)).dM3.angle_tf = 165 - 165 * p / 100 ∧
    (handleSingleMotor s '4' ((p : ℕ) : ℤ)).dM4.angle_tf = 180 - 180 * p / 100 ∧
    (handleSingleMotor s '5' ((p : ℕ) : ℤ)).dM5.angle_tf = 180 * p / 100 := by
  have h21 : ('2' : Char) ≠ '1' := by decide
  have h31 : ('3' : Char) ≠ '1' := by decide
  have h32 : ('3' : Char) ≠ '2' := by decide
  have h41 : ('4' : Char) ≠ '1' := by decide
  have h42 : ('4' : Char) ≠ '2' := by decide
  have h43 : ('4' : Char) ≠ '3' := by decide
  have h51 : ('5' : Char) ≠ '1' := by decide
  have h52 : ('5' : Char) ≠ '2' := by decide
  have h53 : ('5' : Char) ≠ '3' := by decide
  have h54 : ('5' : Char) ≠ '4' := by decide
  have hdir : ∀ q : ℕ, q ≤ 100 →
      (((((q : ℤ) - 0) * (180 - 0)).tdiv (100 - 0) + 0) % 256).toNat = 180 * q / 100 := by
    intro q hq
    interval_cases q <;> decide
  have hrev : ∀ (q r : ℕ), q ≤ 100 → r = 165 ∨ r = 180 →
      (((((q : ℤ) - 0) * (0 - (r : ℤ))).tdiv (100 - 0) + (r : ℤ)) % 256).toNat
        = r - r * q / 100 := by
    intro q r hq hr
    rcases hr with hr | hr <;> subst hr <;> interval_cases q <;> decide
  refine ⟨?_, ?_, ?_, ?_, ?_⟩
  · simp only [handleSingleMotor, if_pos rfl, arduinoMap, compute_dynamics]
    exact hdir p hp
  · simp only [handleSingleMotor, if_neg h21, if_pos rfl, arduinoMap, compute_dynamics]
    exact hrev p 180 hp (Or.inr rfl)
  · simp only [handleSingleMotor, if_neg h31, if_neg h32, if_pos rfl, arduinoMap,
      compute_dynamics]
    exact hrev p 165 hp (Or.inl rfl)
  · simp only [handleSingleMotor, if_neg h41, if_neg h42, if_neg h43, if_pos rfl,
      arduinoMap, compute_dynamics]
    exact hrev p 180 hp (Or.inr rfl)
  · simp only [handleSingleMotor, if_neg h51, if_neg h52, if_neg h53, if_neg h54,
      if_pos rfl, arduinoMap, compute_dynamics]
    exact hdir p hp

theorem single_motor_mapping_witness :
    (50 : ℕ) ≤ 100 ∧
    ((handleSingleMotor initialState '1' (((50 : ℕ) : ℕ) : ℤ)).dM1.angle_tf
        = 180 * 50 / 100 ∧
      (handleSingleMotor initialState '2' (((50 : ℕ) : ℕ) : ℤ)).dM2.angle_tf
        = 180 - 180 * 50 / 100 ∧
      (handleSingleMotor initialState '3' (((50 : ℕ) : ℕ) : ℤ)).dM3.angle_tf
        = 165 - 165 * 50 / 100 ∧
      (handleSingleMotor initialState '4' (((50 : ℕ) : ℕ) : ℤ)).dM4.angle_tf
        = 180 - 180 * 50 / 100 ∧
      (handleSingleMotor initialState '5' (((50 : ℕ) : ℕ) : ℤ)).dM5.angle_tf
        = 180 * 50 / 100) :=
  ⟨by norm_num, single_motor_mapping initialState 50 (by norm_num)⟩

/-! ## Claim C3 — `reset_robot` is not blocking (code bug)

The source's dispatch loop is

    do { t = millis() - t0; ...write all six servos... } while (t > TF);

Since the first elapsed sample satisfies `t ≤ TF` (it is a few milliseconds
at most), the `while (t > TF)` condition is false immediately and the loop
body runs exactly once, at `t ≈ 0` — where `compute_angle` returns each
axis's *current* angle.  The spec requires looping until the elapsed time
exceeds `TF` and axis 3 ending at its initial angle 165°; the condition is
inverted. -/

/-- Whenever the first elapsed-time sample does not exceed `TF`, the reset
dispatch loop executes its body exactly once and returns: `reset_robot`
degenerates to a single write round at that sample. -/
lemma reset_robot_single_pass (s : RobotState) (t : ℕ) (rest : List ℕ) (ht : t ≤ 1500) :
    reset_robot s (t :: rest) = resetBody (resetPlanned s) t := by
  unfold reset_robot resetLoop
  rw [if_neg (by omega)]

/-- A state in which axis 3 has been moved away from its initial 165° down
to 90° (all other axes at their initial angles). -/
def resetDemoState : RobotState := { initialState with rM3 := 90 }

/-- Claim C3 (code-bug demonstration): issuing `reset` with axis 3 at 90°
and elapsed-time samples 0, 200, …, 1600 ms leaves axis 3 reporting 90° —
the loop exited after the single `t = 0` write — although the reset profile
itself would have delivered 165° had the loop still been running at any
time past `TF` (third conjunct: sampling the planned reset profile at
1600 ms yields 165°). -/
theorem reset_not_blocking_at_failing_input :
    (reset_robot resetDemoState [0, 200, 400, 600, 800, 1000, 1200, 1400, 1600]).rM3 = 90 ∧
    (90 : ℕ) ≠ 165 ∧
    compute_angle (compute_dynamics 165 90) 1600 = 165 := by
  refine ⟨?_, by norm_num, ?_⟩ <;> decide

/-! ## Zero-distance profiles (claim C5) -/

lemma dynDistance_self (a : ℕ) : dynDistance a a = 0 := by
  unfold dynDistance
  omega

lemma dynDelta_self (a : ℕ) : dynDelta a a = 230400 := by
  unfold dynDelta
  rw [dynDistance_self]
  norm_num

lemma dynSpeed_230400 : dynSpeed 230400 = 0 := by decide

lemma dynT1_self (a : ℕ) : dynT1 a a = 0 := by
  unfold dynT1
  rw [dynDelta_self, dynSpeed_230400]

/-- The `angle_t1` value of a zero-distance plan is the current angle for
*every* value of the (undefined, see `dynSign`) `SIGN` quotient: the factor
`t1 ^ 2` is 0. -/
lemma dynA1_self_any_sign (a : ℕ) (ha : a ≤ 255) (sgn : ℤ) :
    toU8Frac ((a : ℤ) * 1000000 + sgn * 160 * ((dynT1 a a : ℕ) : ℤ) ^ 2) 1000000 = a := by
  rw [dynT1_self]
  have he : (a : ℤ) * 1000000 + sgn * 160 * (((0 : ℕ) : ℕ) : ℤ) ^ 2 = (a : ℤ) * 1000000 := by
    push_cast
    ring
  rw [he]
  exact toU8Frac_mul a 1000000 (by norm_num) (by omega)

lemma dynA1_self (a : ℕ) (ha : a ≤ 255) : dynA1 a a = a := by
  unfold dynA1
  exact dynA1_self_any_sign a ha (dynSign a a)

/-- The wrapped `uint32_t` cruise product of a zero-distance plan is 0 for
*every* value of the `SIGN` quotient: `SPEED = 0`. -/
lemma dynProd_self_any_sign (a : ℕ) (sgn : ℤ) :
    ((sgn * (dynSpeed (dynDelta a a) : ℤ)) % (2 ^ 32)).toNat
      * (dynT2 a a - dynT1 a a) % 2 ^ 32 = 0 := by
  rw [dynDelta_self, dynSpeed_230400]
  simp

lemma dynProd_self (a : ℕ) : dynProd a a = 0 := by
  unfold dynProd
  exact dynProd_self_any_sign a (dynSign a a)

lemma dynA2_self (a : ℕ) (ha : a ≤ 255) : dynA2 a a = a := by
  unfold dynA2
  rw [dynProd_self, dynA1_self a ha]
  have he : (a : ℤ) * 1000 + (((0 : ℕ) : ℕ) : ℤ) = (a : ℤ) * 1000 := by
    push_cast
    ring
  rw [he]
  exact toU8Frac_mul a 1000 (by norm_num) (by omega)

/-- A zero-distance plan: `forward = false`, `t1 = 0`, `t2 = TF`, and all
four stored angles equal the current angle; `delta = 230400`. -/
lemma compute_dynamics_self (a : ℕ) (ha : a ≤ 255) :
    compute_dynamics a a = ⟨false, 0, 1500, a, a, a, a, 230400⟩ := by
  have h2 : dynT2 a a = 1500 := by
    unfold dynT2
    rw [dynT1_self]
  simp [compute_dynamics, dynT1_self, h2, dynA1_self a ha, dynA2_self a ha, dynDelta_self]

/-- Sampling a flat profile (`t1 = 0`, `t2 = 1500`, all of `angle_t0`,
`angle_t1`, `angle_t2` equal to `a`) inside the cruise window returns `a`. -/
lemma compute_angle_flat (f : Bool) (a g : ℕ) (d : ℤ) (ha : a ≤ 255) (t : ℕ)
    (ht0 : 0 < t) (ht : t ≤ 1500) :
    compute_angle ⟨f, 0, 1500, a, a, a, g, d⟩ t = a := by
  unfold compute_angle
  rw [if_neg (by simpa using ht0.ne'), if_pos (by simpa using ht)]
  simp [phase2val]
  omega

/-- Sampling a zero-distance profile returns the current angle at every
elapsed time. -/
lemma compute_angle_const (a : ℕ) (ha : a ≤ 255) (t : ℕ) :
    compute_angle ⟨false, 0, 1500, a, a, a, a, 230400⟩ t = a := by
  rcases Nat.eq_zero_or_pos t with h0 | h0
  · subst h0
    unfold compute_angle
    rw [if_pos (by simp)]
    have he : (a : ℤ) * 6250 - (((0 : ℕ) : ℕ) : ℤ) ^ 2 = (a : ℤ) * 6250 := by
      push_cast
      ring
    simp only [MotorDynamics.forward, Bool.false_eq_true, if_neg]
    rw [show ((0 : ℕ) : ℤ) ^ 2 = 0 by norm_num]
    rw [show (a : ℤ) * 6250 - 0 = (a : ℤ) * 6250 by ring]
    exact toU8Frac_mul a 6250 (by norm_num) (by omega)
  · by_cases h1 : t ≤ 1500
    · exact compute_angle_flat false a a 230400 ha t h0 h1
    · unfold compute_angle
      rw [if_neg (by simpa using h0.ne'), if_neg (by simpa using h1),
        if_neg (by simpa using h1)]

/-! ## Claim C5 — zero-distance moves stay put -/

/-- Claim C5: planning a move whose target equals the current angle `a`
yields peak speed 0 and `t1 = 0`, and sampling the resulting profile
returns `a` at every elapsed time.  In particular (scenario), `M1.050`
issued with axis 1 reported at 90° stores target
`map(50,0,100,0,180) = 90`, i.e. exactly `compute_dynamics 90 90`, whose
discriminant is `(1500·320/1000)² = 230400 ≥ 0`. -/
theorem zero_distance_profile (a : ℕ) (ha : a ≤ 255) :
    dynSpeed (dynDelta a a) = 0 ∧
    (compute_dynamics a a).t1 = 0 ∧
    (∀ t : ℕ, compute_angle (compute_dynamics a a) t = a) ∧
    (handleSingleMotor initialState '1' 50).dM1 = compute_dynamics 90 90 ∧
    (compute_dynamics 90 90).delta = 230400 := by
  refine ⟨?_, ?_, ?_, ?_, ?_⟩
  · rw [dynDelta_self]
    exact dynSpeed_230400
  · exact dynT1_self a
  · intro t
    rw [compute_dynamics_self a ha]
    exact compute_angle_const a ha t
  · decide
  · decide

theorem zero_distance_profile_witness :
    (90 : ℕ) ≤ 255 ∧
    (dynSpeed (dynDelta 90 90) = 0 ∧
      (compute_dynamics 90 90).t1 = 0 ∧
      (∀ t : ℕ, compute_angle (compute_dynamics 90 90) t = 90) ∧
      (handleSingleMotor initialState '1' 50).dM1 = compute_dynamics 90 90 ∧
      (compute_dynamics 90 90).delta = 230400) :=
  ⟨by norm_num, zero_distance_profile 90 (by norm_num)⟩

/-! ## Claim C4 — trajectory endpoints -/

/-- Sampling any freshly planned profile at elapsed time 0 returns the
current angle exactly (both directions: the quadratic term is 0). -/
lemma compute_angle_zero (g c : ℕ) (hc : c ≤ 255) :
    compute_angle (compute_dynamics g c) 0 = c := by
  have hplus : toU8Frac ((c : ℤ) * 6250 + ((0 : ℕ) : ℤ) ^ 2) 6250 = c := by
    rw [show (((0 : ℕ) : ℤ)) ^ 2 = 0 by norm_num, add_zero]
    exact toU8Frac_mul c 6250 (by norm_num) (by omega)
  have hminus : toU8Frac ((c : ℤ) * 6250 - ((0 : ℕ) : ℤ) ^ 2) 6250 = c := by
    rw [show (((0 : ℕ) : ℤ)) ^ 2 = 0 by norm_num, sub_zero]
    exact toU8Frac_mul c 6250 (by norm_num) (by omega)
  simp only [compute_angle, compute_dynamics]
  rw [if_pos (Nat.zero_le _)]
  split
  · exact hplus
  · exact hminus

lemma dynDistance_up (c : ℕ) : dynDistance (c + 1) c = 1 := by
  unfold dynDistance
  omega

lemma dynDistance_down (c : ℕ) : dynDistance c (c + 1) = 1 := by
  unfold dynDistance
  omega

lemma dynSpeed_229120 : dynSpeed 229120 = 0 := by decide

/-- A one-degree-up plan is flat: `SPEED = 0`, `t1 = 0`, and all three
intermediate angles equal the current angle (so the target is missed by the
one degree the discretised profile cannot express). -/
lemma compute_dynamics_up1 (c : ℕ) (hc : c + 1 ≤ 255) :
    compute_dynamics (c + 1) c = ⟨true, 0, 1500, c, c, c, c + 1, 229120⟩ := by
  have hdel : dynDelta (c + 1) c = 229120 := by
    unfold dynDelta
    rw [dynDistance_up]
    norm_num
  have ht1 : dynT1 (c + 1) c = 0 := by
    unfold dynT1
    rw [hdel, dynSpeed_229120]
  have ht2 : dynT2 (c + 1) c = 1500 := by
    unfold dynT2
    rw [ht1]
  have ha1 : dynA1 (c + 1) c = c := by
    unfold dynA1
    rw [ht1]
    have he : (c : ℤ) * 1000000 + dynSign (c + 1) c * 160 * (((0 : ℕ) : ℕ) : ℤ) ^ 2
        = (c : ℤ) * 1000000 := by
      push_cast
      ring
    rw [he]
    exact toU8Frac_mul c 1000000 (by norm_num) (by omega)
  have hpr : dynProd (c + 1) c = 0 := by
    unfold dynProd
    rw [hdel, dynSpeed_229120]
    simp
  have ha2 : dynA2 (c + 1) c = c := by
    unfold dynA2
    rw [hpr, ha1]
    have he : (c : ℤ) * 1000 + (((0 : ℕ) : ℕ) : ℤ) = (c : ℤ) * 1000 := by
      push_cast
      ring
    rw [he]
    exact toU8Frac_mul c 1000 (by norm_num) (by omega)
  simp [compute_dynamics, ht1, ht2, ha1, ha2, hdel, Nat.lt_succ_self]

/-- A one-degree-down plan is likewise flat at the current angle. -/
lemma compute_dynamics_down1 (c : ℕ) (hc : c + 1 ≤ 255) :
    compute_dynamics c (c + 1) = ⟨false, 0, 1500, c + 1, c + 1, c + 1, c, 229120⟩ := by
  have hdel : dynDelta c (c + 1) = 229120 := by
    unfold dynDelta
    rw [dynDistance_down]
    norm_num
  have ht1 : dynT1 c (c + 1) = 0 := by
    unfold dynT1
    rw [hdel, dynSpeed_229120]
  have ht2 : dynT2 c (c + 1) = 1500 := by
    unfold dynT2
    rw [ht1]
  have ha1 : dynA1 c (c + 1) = c + 1 := by
    unfold dynA1
    rw [ht1]
    have he : ((c + 1 : ℕ) : ℤ) * 1000000 + dynSign c (c + 1) * 160 * (((0 : ℕ) : ℕ) : ℤ) ^ 2
        = ((c + 1 : ℕ) : ℤ) * 1000000 := by
      push_cast
      ring
    rw [he]
    exact toU8Frac_mul (c + 1) 1000000 (by norm_num) (by omega)
  have hpr : dynProd c (c + 1) = 0 := by
    unfold dynProd
    rw [hdel, dynSpeed_229120]
    simp
  have ha2 : dynA2 c (c + 1) = c + 1 := by
    unfold dynA2
    rw [hpr, ha1]
    have he : ((c + 1 : ℕ) : ℤ) * 1000 + (((0 : ℕ) : ℕ) : ℤ) = ((c + 1 : ℕ) : ℤ) * 1000 := by
      push_cast
      ring
    rw [he]
    exact toU8Frac_mul (c + 1) 1000 (by norm_num) (by omega)
  simp [compute_dynamics, ht1, ht2, ha1, ha2, hdel, show ¬(c + 1 < c) by omega]

/-- For a move of distance ≥ 2 the deceleration branch is selected at
`t = TF` and returns the target exactly (the `t - TF` wraparound vanishes at
`t = TF` in both directions). -/
lemma compute_angle_tf_D2 (g c : ℕ) (hg : g ≤ 255) (hD : 2 ≤ dynDistance g c) :
    compute_angle (compute_dynamics g c) 1500 = g := by
  have hdel : dynDelta g c ≤ 227840 := by
    unfold dynDelta
    omega
  have hsp : 1 ≤ dynSpeed (dynDelta g c) := dynSpeed_pos _ hdel
  have ht1lo : 3 ≤ dynT1 g c := by
    unfold dynT1
    omega
  have ht1hi : dynT1 g c ≤ 750 := dynT1_le_750 g c
  have ht2hi : dynT2 g c ≤ 1497 := by
    unfold dynT2
    omega
  simp only [compute_angle, compute_dynamics]
  rw [if_neg (by omega), if_neg (by omega), if_pos (le_refl 1500)]
  split
  · rw [show ((1500 : ℕ) - 1500) = 0 from rfl,
      show (((0 : ℕ) : ℤ)) ^ 2 = 0 by norm_num, sub_zero]
    exact toU8Frac_mul g 6250 (by norm_num) (by omega)
  · rw [show ((1500 + 2 ^ 32 - 1500 : ℕ) % 2 ^ 32) = 0 by norm_num,
      show (((0 : ℕ) : ℤ)) ^ 2 = 0 by norm_num, add_zero]
    exact toU8Frac_mul g 6250 (by norm_num) (by omega)

/-- Claim C4: for every `current, target ∈ [0, 180]` (where the planned
discriminant is automatically non-negative), sampling the planned profile
at elapsed time 0 yields `current` exactly, and sampling it at `TF = 1500`
yields `target` to within one unit of rounding (exact except for
one-degree moves, whose flat discretised profile stays at `current`). -/
theorem trajectory_endpoints (c g : ℕ) (hc : c ≤ 180) (hg : g ≤ 180) :
    compute_angle (compute_dynamics g c) 0 = c ∧
    Nat.dist (compute_angle (compute_dynamics g c) 1500) g ≤ 1 := by
  refine ⟨compute_angle_zero g c (by omega), ?_⟩
  rcases eq_or_ne c g with hcg | hcg
  · subst hcg
    rw [compute_dynamics_self c (by omega),
      compute_angle_flat false c c 230400 (by omega) 1500 (by norm_num) le_rfl]
    simp [Nat.dist]
  · rcases eq_or_ne g (c + 1) with hg1 | hg1
    · subst hg1
      rw [compute_dynamics_up1 c (by omega),
        compute_angle_flat true c (c + 1) 229120 (by omega) 1500 (by norm_num) le_rfl]
      simp only [Nat.dist]
      omega
    · rcases eq_or_ne c (g + 1) with hc1 | hc1
      · subst hc1
        rw [compute_dynamics_down1 g (by omega),
          compute_angle_flat false (g + 1) g 229120 (by omega) 1500 (by norm_num) le_rfl]
        simp only [Nat.dist]
        omega
      · have hD : 2 ≤ dynDistance g c := by
          unfold dynDistance
          omega
        rw [compute_angle_tf_D2 g c (by omega) hD]
        simp [Nat.dist]

theorem trajectory_endpoints_witness :
    (90 : ℕ) ≤ 180 ∧ (165 : ℕ) ≤ 180 ∧
    (compute_angle (compute_dynamics 165 90) 0 = 90 ∧
      Nat.dist (compute_angle (compute_dynamics 165 90) 1500) 165 ≤ 1) :=
  ⟨by norm_num, by norm_num, trajectory_endpoints 90 165 (by norm_num) (by norm_num)⟩

/-! ## Claim C7 — backward sampling is not monotone (code bug)

For any backward move of distance ≥ 2 the planner evaluates
`SIGN * SPEED * (dyn->t2 - dyn->t1)` with `SIGN * SPEED = -SPEED < 0`; the
multiplication by the `uint32_t` difference wraps the product to
`2 ^ 32 - SPEED * (t2 - t1)`, so `angle_t2` is stored from the double value
`angle_t1 + (2 ^ 32 - SPEED * (t2 - t1)) / 1000 ≈ 4.29·10^6` instead of the
intended `angle_t1 - SPEED * (t2 - t1) / 1000`.  (The `uint8_t` store of
that value is undefined behaviour, modelled `% 256`; under *any* resolution
the stored cruise endpoint is wildly wrong.)  The sampled cruise segment
then interpolates from `angle_t1` toward that corrupted endpoint, rising
away from the target; the spec's monotone-descent property fails. -/

/-- Claim C7 (code-bug demonstration): the profile planned from 92° down to
90° is feasible (`delta = 227840 ≥ 0`) and backward, yet its stored cruise
endpoint `angle_t2` is 144 (wrapped, instead of the intended ≈ 89.5°), and
sampling the profile gives 92° at `t = 0`, 91° at `t = 3` and 117° at
`t = 750`: the trajectory *rises* mid-move instead of descending
monotonically to 90°, refuting monotonicity in the direction of travel. -/
theorem backward_sampling_not_monotone :
    (compute_dynamics 90 92).delta = 227840 ∧
    0 ≤ (compute_dynamics 90 92).delta ∧
    (compute_dynamics 90 92).forward = false ∧
    (compute_dynamics 90 92).angle_t1 = 91 ∧
    (compute_dynamics 90 92).angle_t2 = 144 ∧
    compute_angle (compute_dynamics 90 92) 0 = 92 ∧
    compute_angle (compute_dynamics 90 92) 3 = 91 ∧
    compute_angle (compute_dynamics 90 92) 750 = 117 ∧
    compute_angle (compute_dynamics 90 92) 1500 = 90 := by
  decide
